import Mathlib

/-!
Verification development for the AirTouch 3 smart-control component.

The definitions below are a shallow embedding of the service handler
handle_smart_control in smart_control.py.  Device state is the view the
handler reads through the device client: aggregate power, and for each
zone its id, name, on/off status (the source compares status with the
integers 0 and 1), desired temperature and ordered sensor list, where a
sensor exposes an optional temperature reading.  Commands issued by the
handler (zone switches, climate turn_on / turn_off, notifications) are
recorded in a trace.  Forced re-reads of device state are modelled by
applying the effect of every command issued so far to the state, which
is the stated assumption that commands are reflected on the next
refresh.  Notification dispatch may fail; a failure oracle decides,
per notification title, whether the dispatch succeeds, and a failed
dispatch is caught by the source and contributes nothing to the trace.
-/

namespace AT3

/-- A sensor attached to a zone; the reading may be absent. -/
structure Sensor where
  temperature : Option Int
deriving DecidableEq

/-- One zone as read through the device client. -/
structure Zone where
  id : Nat
  name : String
  status : Nat
  desired_temperature : Int
  sensors : List Sensor
deriving DecidableEq

/-- Aggregate device state: AC power plus the ordered zone list. -/
structure DeviceState where
  power : Nat
  zones : List Zone
deriving DecidableEq

/-- A command issued by the handler during one cycle. -/
inductive Cmd where
  | zoneSwitch (zoneId : Nat) (value : Nat)
  | climateTurnOff (entity : String)
  | climateTurnOn (entity : String)
  | notify (service : String) (title : String)
deriving DecidableEq

/-- Degrees above the set temperature that turn a zone off (source constant). -/
def TEMP_ABOVE_THRESHOLD : Int := 1

/-- Degrees below the set temperature that turn a zone on (source constant). -/
def TEMP_BELOW_THRESHOLD : Int := 2

/-- Default notification service (source constant). -/
def DEFAULT_NOTIFY_SERVICE : String := "mobile_app_tom_s_phone"

/-- Temperature of the first sensor of a zone, if the zone has sensors
and that sensor has a reading.  The source checks the two cases
separately (no sensors, reading is None) and skips the zone in both. -/
def firstSensorTemp (z : Zone) : Option Int :=
  match z.sensors with
  | [] => none
  | s0 :: _ => s0.temperature

/-- Best-effort notification: the source only dispatches when the
notify service name is truthy, wraps the call in try/except and logs a
failure, so a failing dispatch leaves no trace and blocks nothing. -/
def emitNotify (svc : String) (ok : String → Bool) (title : String) : List Cmd :=
  if svc = ("") then [] else (if ok title then [Cmd.notify svc title] else [])

/-- Effect of the pre-pass on one zone: a zone that is on but not in
the controlled list is switched off (source lines 156-159). -/
def prePassZone (controlled : List Nat) (z : Zone) : Zone :=
  if z.id ∉ controlled ∧ z.status = 1 then { z with status := 0 } else z

/-- Commands issued by the pre-pass (switch off non-controlled on zones). -/
def prePassCmds (controlled : List Nat) (s : DeviceState) : List Cmd :=
  (s.zones.filter (fun z => decide (z.id ∉ controlled ∧ z.status = 1))).map
    (fun z => Cmd.zoneSwitch z.id 0)

/-- State after the pre-pass and the forced refresh that follows it. -/
def stateAfterForcedOff (controlled : List Nat) (s : DeviceState) : DeviceState :=
  { s with zones := s.zones.map (prePassZone controlled) }

/-- Number of controlled zones whose status is on (source lines 170-174
and the re-count at lines 250-254). -/
def countActive (controlled : List Nat) (s : DeviceState) : Nat :=
  s.zones.countP (fun z => decide (z.id ∈ controlled ∧ z.status = 1))

/-- Commands issued by the per-zone pass for one zone (source lines
177-241).  Non-controlled zones are ignored; zones without a first
sensor reading are skipped.  Rule 1: at or above desired plus the high
threshold and on, switch off, unless the pre-computed active count is
one, in which case the zone is left on.  Rule 2: at or below desired
minus the low threshold and off, switch on. -/
def zoneActionCmds (controlled : List Nat) (activeCount : Nat) (svc : String)
    (ok : String → Bool) (z : Zone) : List Cmd :=
  if z.id ∈ controlled then
    match firstSensorTemp z with
    | none => []
    | some t =>
      if t ≥ z.desired_temperature + TEMP_ABOVE_THRESHOLD then
        (if z.status = 1 then
          (if activeCount = 1 then []
           else Cmd.zoneSwitch z.id 0 :: emitNotify svc ok ("Zone Turned Off"))
         else [])
      else if t ≤ z.desired_temperature - TEMP_BELOW_THRESHOLD then
        (if z.status = 0 then Cmd.zoneSwitch z.id 1 :: emitNotify svc ok ("Zone Turned On")
         else [])
      else []
  else []

/-- Effect of the per-zone pass on one zone, mirroring zoneActionCmds. -/
def zoneStepState (controlled : List Nat) (activeCount : Nat) (z : Zone) : Zone :=
  if z.id ∈ controlled then
    match firstSensorTemp z with
    | none => z
    | some t =>
      if t ≥ z.desired_temperature + TEMP_ABOVE_THRESHOLD then
        (if z.status = 1 ∧ activeCount ≠ 1 then { z with status := 0 } else z)
      else if t ≤ z.desired_temperature - TEMP_BELOW_THRESHOLD then
        (if z.status = 0 then { z with status := 1 } else z)
      else z
  else z

/-- The below-threshold flag contribution of one zone (source line 241):
it is set inside the rule-2 elif branch but outside the status check, so
any controlled zone with a reading at or below desired minus the low
threshold sets it, whether the zone is on or off. -/
def zoneBelowFlag (controlled : List Nat) (z : Zone) : Bool :=
  decide (z.id ∈ controlled) &&
    (match firstSensorTemp z with
     | none => false
     | some t =>
       !(decide (t ≥ z.desired_temperature + TEMP_ABOVE_THRESHOLD)) &&
         decide (t ≤ z.desired_temperature - TEMP_BELOW_THRESHOLD))

/-- Whether any controlled zone set the below-threshold flag during the
per-zone pass over the given (post pre-pass) state. -/
def anyBelowB (controlled : List Nat) (s : DeviceState) : Bool :=
  s.zones.any (zoneBelowFlag controlled)

/-- All commands of the per-zone pass, in zone order. -/
def zonePassCmds (controlled : List Nat) (activeCount : Nat) (svc : String)
    (ok : String → Bool) (s : DeviceState) : List Cmd :=
  (s.zones.map (zoneActionCmds controlled activeCount svc ok)).flatten

/-- State observed by the forced re-read after the per-zone pass. -/
def stateAfterZonePass (controlled : List Nat) (s : DeviceState) : DeviceState :=
  let s1 := stateAfterForcedOff controlled s
  { s1 with zones := s1.zones.map (zoneStepState controlled (countActive controlled s1)) }

/-- The all-active-zones-above-threshold re-check (source lines 250-267):
true unless some controlled zone that is on has a first sensor reading
strictly below desired plus the high threshold.  Active zones without a
reading are counted but cannot make this false. -/
def allAboveB (controlled : List Nat) (s : DeviceState) : Bool :=
  s.zones.all (fun z =>
    !(decide (z.id ∈ controlled ∧ z.status = 1) &&
      (match firstSensorTemp z with
       | none => false
       | some t => decide (t < z.desired_temperature + TEMP_ABOVE_THRESHOLD))))

/-- Commands of the aggregate AC stage (source lines 274-334), applied
to the re-read state p.  Rule 3: all active above threshold, positive
active count and AC on turns the AC off.  Rule 4 (elif): the
below-threshold flag with the AC off turns the AC on.  Rule 5 (elif):
with the AC off, every controlled zone that is off is switched on. -/
def acRuleCmds (controlled : List Nat) (cid svc : String) (ok : String → Bool)
    (anyBelow : Bool) (p : DeviceState) : List Cmd :=
  if allAboveB controlled p = true ∧ 0 < countActive controlled p ∧ p.power = 1 then
    Cmd.climateTurnOff cid :: emitNotify svc ok ("AC Turned Off")
  else if anyBelow = true ∧ p.power ≠ 1 then
    Cmd.climateTurnOn cid :: emitNotify svc ok ("AC Turned On")
  else if p.power ≠ 1 then
    (p.zones.filter (fun z => decide (z.id ∈ controlled ∧ z.status = 0))).map
      (fun z => Cmd.zoneSwitch z.id 1)
  else []

/-- Effect of the rule-5 reactivation on one zone: an off controlled
zone is switched on. -/
def ruleFiveZone (controlled : List Nat) (z : Zone) : Zone :=
  if z.id ∈ controlled ∧ z.status = 0 then { z with status := 1 } else z

/-- Effect of the aggregate AC stage on device state, under the
assumption that every issued command is reflected on the next refresh:
climate turn_off sets power to 0, climate turn_on sets it to 1, and the
rule-5 zone switches set the status of off controlled zones to 1. -/
def acRuleState (controlled : List Nat) (anyBelow : Bool) (p : DeviceState) : DeviceState :=
  if allAboveB controlled p = true ∧ 0 < countActive controlled p ∧ p.power = 1 then
    { p with power := 0 }
  else if anyBelow = true ∧ p.power ≠ 1 then
    { p with power := 1 }
  else if p.power ≠ 1 then
    { p with zones := p.zones.map (ruleFiveZone controlled) }
  else p

/-- Full command trace of one cycle of the core control logic, given the
resolved controlled zone ids and climate entity id. -/
def runCycleCmds (controlled : List Nat) (cid svc : String) (ok : String → Bool)
    (s : DeviceState) : List Cmd :=
  prePassCmds controlled s
    ++ zonePassCmds controlled (countActive controlled (stateAfterForcedOff controlled s))
         svc ok (stateAfterForcedOff controlled s)
    ++ acRuleCmds controlled cid svc ok
         (anyBelowB controlled (stateAfterForcedOff controlled s))
         (stateAfterZonePass controlled s)

/-- Device state after one cycle, with every issued command reflected. -/
def runCycleState (controlled : List Nat) (s : DeviceState) : DeviceState :=
  acRuleState controlled (anyBelowB controlled (stateAfterForcedOff controlled s))
    (stateAfterZonePass controlled s)

/-- Whether a command mutates the device (everything except notify). -/
def isDeviceCmd : Cmd → Bool
  | Cmd.notify _ _ => false
  | _ => true

/-- The device-mutating commands of a trace. -/
def deviceCmds (l : List Cmd) : List Cmd := l.filter isDeviceCmd

/-- Whether a command is an aggregate climate power command. -/
def isClimateCmd : Cmd → Bool
  | Cmd.climateTurnOff _ => true
  | Cmd.climateTurnOn _ => true
  | _ => false

/-- Well-formedness of device data: every zone status is 0 or 1, as
reported by the device client. -/
def statusWF (s : DeviceState) : Prop :=
  ∀ z ∈ s.zones, z.status = 0 ∨ z.status = 1

instance (s : DeviceState) : Decidable (statusWF s) := by
  unfold statusWF; infer_instance

/-! The service-handler wrapper: precondition checks and resolution of
the controlled zone set from the host environment (source lines 47-152).
The host environment carries the automation toggle state, the service
call parameters, the entity registry scan result, which entity ids have
a state, the integration entries stored under the domain key, the zone
input booleans with their states, and the switch entity ids. -/

/-- Environment of one service invocation, as read from the host. -/
structure ServiceEnv where
  callClimateEntityId : Option String
  callNotifyService : Option String
  automationState : Option String
  registryClimateEntities : List String
  statesPresent : List String
  hassData : Option (List Nat)
  inputBooleanStates : List (String × String)
  switchEntityIds : List String
  notifyOk : String → Bool

/-- Prefix of the per-zone control input booleans (source constant
named ZONE CONTROL PREFIX there). -/
def ZONE_CONTROL_PFX : String := "input_boolean.at3_zone_"

/-- The fixed name-to-switch mapping of the source ( ZONE_MAPPING). -/
def ZONE_MAPPING : List (String × String) :=
  [("living", "switch.living"), ("study", "switch.study"),
   ("master", "switch.master"), ("bed_2", "switch.bed_2"),
   ("bed_3", "switch.bed_3"), ("bed_4", "switch.bed_4"),
   ("attic_1", "switch.attic_1"), ("attic", "switch.attic")]

/-- Python substring containment. -/
def substrB (x y : String) : Bool := decide (x.data <:+: y.data)

/-- Python startswith. -/
def startsWithB (x pfx : String) : Bool := decide (pfx.data <+: x.data)

/-- Insert into an association list with dictionary overwrite semantics. -/
def insertKV {α : Type} (m : List (String × α)) (k : String) (v : α) :
    List (String × α) :=
  if m.any (fun pr => pr.1 == k) then
    m.map (fun pr => if pr.1 == k then (k, v) else pr)
  else m ++ [(k, v)]

/-- Dictionary lookup in an association list. -/
def lookupKV {α : Type} (m : List (String × α)) (k : String) : Option α :=
  (m.find? (fun pr => pr.1 == k)).map (fun pr => pr.2)

/-- Cleaned zone name: lower case, spaces to underscores, apostrophes
removed (source line 113). -/
def cleanName (n : String) : String :=
  ((n.toLower).replace (" ") ("_")).replace ("\x27") ("")

/-- The part of a switch entity id after the domain dot, or the empty
string when the id has no dot (source line 117). -/
def switchNamePart (eid : String) : String :=
  if eid.contains ('.') then (((eid.splitOn (".")).get? 1).getD ("")) else ("")

/-- The fuzzy match of a switch name against a cleaned zone name
(source line 118): nonempty and equal or contained. -/
def zoneSwitchMatch (zc swName : String) : Bool :=
  (!(swName == (""))) && ((swName == zc) || substrB swName zc)

/-- The switch-entity-to-zone-id map (source lines 110-120): for each
zone, every switch entity whose name part matches is mapped to that
zone id, later zones overwriting earlier ones. -/
def buildSwitchMap (switchIds : List String) (zones : List Zone) :
    List (String × Nat) :=
  zones.foldl
    (fun m z => switchIds.foldl
      (fun m2 sid =>
        if zoneSwitchMatch (cleanName z.name) (switchNamePart sid) then insertKV m2 sid z.id
        else m2) m) []

/-- The active-input-boolean dictionary (source lines 127-132): every
input boolean whose id starts with the zone control prefix contributes
its suffix mapped to whether its state is on. -/
def inputBoolMap (ibs : List (String × String)) : List (String × Bool) :=
  ibs.foldl
    (fun m pr =>
      if startsWithB pr.1 ZONE_CONTROL_PFX then
        insertKV m (pr.1.replace ZONE_CONTROL_PFX ("")) (pr.2 == ("on"))
      else m) []

/-- The resolved controlled zone ids (source lines 135-147): walk the
fixed mapping in order; a zone is controlled when its switch entity was
matched to a zone id and its input boolean is on. -/
def controlledZoneIds (env : ServiceEnv) (zones : List Zone) : List Nat :=
  let swMap := buildSwitchMap env.switchEntityIds zones
  let ibm := inputBoolMap env.inputBooleanStates
  ZONE_MAPPING.foldl
    (fun acc pr =>
      match lookupKV swMap pr.2 with
      | some zid => if (lookupKV ibm pr.1).getD false then acc ++ [zid] else acc
      | none => acc) []

/-- The climate entity id used by the cycle: the one supplied in the
call when truthy, otherwise the first registry entity of this
integration with the climate domain (source lines 62-75). -/
def resolvedClimate (env : ServiceEnv) : Option String :=
  if (env.callClimateEntityId.getD ("")) = ("") then env.registryClimateEntities.head?
  else env.callClimateEntityId

/-- The whole service handler (source lines 47-338): precondition
checks in source order, then the core cycle.  Every abort path of the
source is a plain return before any device command, so it yields the
empty trace here. -/
def handle_smart_control (env : ServiceEnv) (s : DeviceState) : List Cmd :=
  if env.automationState ≠ some ("on") then []
  else
    match resolvedClimate env with
    | none => []
    | some cid =>
      if cid ∉ env.statesPresent then []
      else
        match env.hassData with
        | none => []
        | some entries =>
          if entries = [] then []
          else
            let controlled := controlledZoneIds env s.zones
            if controlled = [] then []
            else
              runCycleCmds controlled cid
                (env.callNotifyService.getD DEFAULT_NOTIFY_SERVICE) env.notifyOk s

/-! Basic lemmas about the embedding. -/

theorem prePassZone_id (c : List Nat) (z : Zone) : (prePassZone c z).id = z.id := by
  unfold prePassZone; split <;> rfl

theorem firstSensorTemp_congr {w z : Zone} (h : w.sensors = z.sensors) :
    firstSensorTemp w = firstSensorTemp z := by
  unfold firstSensorTemp; rw [h]

theorem prePassZone_sensors (c : List Nat) (z : Zone) :
    (prePassZone c z).sensors = z.sensors := by
  unfold prePassZone; split <;> rfl

theorem prePassZone_firstTemp (c : List Nat) (z : Zone) :
    firstSensorTemp (prePassZone c z) = firstSensorTemp z :=
  firstSensorTemp_congr (prePassZone_sensors c z)

theorem prePassZone_desired (c : List Nat) (z : Zone) :
    (prePassZone c z).desired_temperature = z.desired_temperature := by
  unfold prePassZone; split <;> rfl

theorem prePassZone_of_controlled {c : List Nat} {z : Zone} (hc : z.id ∈ c) :
    prePassZone c z = z := by
  unfold prePassZone
  rw [if_neg]
  intro h
  exact h.1 hc

theorem prePassZone_status (c : List Nat) (z : Zone) :
    (prePassZone c z).status = 0 ∨ (prePassZone c z).status = z.status := by
  unfold prePassZone; split
  · exact Or.inl rfl
  · exact Or.inr rfl

theorem zoneStepState_id (c : List Nat) (n : Nat) (z : Zone) :
    (zoneStepState c n z).id = z.id := by
  unfold zoneStepState
  repeat' split
  all_goals rfl

theorem zoneStepState_sensors (c : List Nat) (n : Nat) (z : Zone) :
    (zoneStepState c n z).sensors = z.sensors := by
  unfold zoneStepState
  repeat' split
  all_goals rfl

theorem zoneStepState_firstTemp (c : List Nat) (n : Nat) (z : Zone) :
    firstSensorTemp (zoneStepState c n z) = firstSensorTemp z :=
  firstSensorTemp_congr (zoneStepState_sensors c n z)

theorem zoneStepState_desired (c : List Nat) (n : Nat) (z : Zone) :
    (zoneStepState c n z).desired_temperature = z.desired_temperature := by
  unfold zoneStepState
  repeat' split
  all_goals rfl

theorem zoneStepState_status (c : List Nat) (n : Nat) (z : Zone) :
    (zoneStepState c n z).status = 0 ∨ (zoneStepState c n z).status = 1 ∨
      (zoneStepState c n z).status = z.status := by
  unfold zoneStepState
  repeat' split
  all_goals simp

theorem ruleFiveZone_id (c : List Nat) (z : Zone) : (ruleFiveZone c z).id = z.id := by
  unfold ruleFiveZone; split <;> rfl

theorem ruleFiveZone_sensors (c : List Nat) (z : Zone) :
    (ruleFiveZone c z).sensors = z.sensors := by
  unfold ruleFiveZone; split <;> rfl

theorem ruleFiveZone_firstTemp (c : List Nat) (z : Zone) :
    firstSensorTemp (ruleFiveZone c z) = firstSensorTemp z :=
  firstSensorTemp_congr (ruleFiveZone_sensors c z)

theorem ruleFiveZone_desired (c : List Nat) (z : Zone) :
    (ruleFiveZone c z).desired_temperature = z.desired_temperature := by
  unfold ruleFiveZone; split <;> rfl

theorem ruleFiveZone_status (c : List Nat) (z : Zone) :
    (ruleFiveZone c z).status = 1 ∨ (ruleFiveZone c z).status = z.status := by
  unfold ruleFiveZone; split
  · exact Or.inl rfl
  · exact Or.inr rfl

theorem zoneBelowFlag_congr (c : List Nat) {z w : Zone} (h1 : w.id = z.id)
    (h2 : firstSensorTemp w = firstSensorTemp z)
    (h3 : w.desired_temperature = z.desired_temperature) :
    zoneBelowFlag c w = zoneBelowFlag c z := by
  unfold zoneBelowFlag
  rw [h1, h2, h3]

theorem zoneBelowFlag_elim {c : List Nat} {z : Zone} (h : zoneBelowFlag c z = true) :
    z.id ∈ c ∧ ∃ t, firstSensorTemp z = some t ∧
      t ≤ z.desired_temperature - TEMP_BELOW_THRESHOLD := by
  unfold zoneBelowFlag at h
  rw [Bool.and_eq_true, decide_eq_true_eq] at h
  refine ⟨h.1, ?_⟩
  rcases hft : firstSensorTemp z with _ | t
  · rw [hft] at h; exact absurd h.2 (by simp)
  · rw [hft] at h
    refine ⟨t, rfl, ?_⟩
    have := h.2
    rw [Bool.and_eq_true, decide_eq_true_eq] at this
    exact this.2

theorem zoneBelowFlag_intro {c : List Nat} {z : Zone} {t : Int} (hc : z.id ∈ c)
    (hft : firstSensorTemp z = some t)
    (hb : t ≤ z.desired_temperature - TEMP_BELOW_THRESHOLD) :
    zoneBelowFlag c z = true := by
  unfold zoneBelowFlag
  rw [hft, Bool.and_eq_true, decide_eq_true_eq]
  refine ⟨hc, ?_⟩
  rw [Bool.and_eq_true, decide_eq_true_eq, Bool.not_eq_true', decide_eq_false_iff_not]
  constructor
  · unfold TEMP_ABOVE_THRESHOLD TEMP_BELOW_THRESHOLD at *
    omega
  · exact hb

theorem anyBelow_map (c : List Nat) (f : Zone → Zone)
    (hid : ∀ z, (f z).id = z.id)
    (hft : ∀ z, firstSensorTemp (f z) = firstSensorTemp z)
    (hd : ∀ z, (f z).desired_temperature = z.desired_temperature)
    (l : List Zone) :
    (l.map f).any (zoneBelowFlag c) = l.any (zoneBelowFlag c) := by
  induction l with
  | nil => rfl
  | cons z zs ih =>
    simp only [List.map_cons, List.any_cons, ih,
      zoneBelowFlag_congr c (hid z) (hft z) (hd z)]

theorem allAboveB_eq_false_iff (c : List Nat) (s : DeviceState) :
    allAboveB c s = false ↔ ∃ z ∈ s.zones, z.id ∈ c ∧ z.status = 1 ∧
      ∃ t, firstSensorTemp z = some t ∧
        t < z.desired_temperature + TEMP_ABOVE_THRESHOLD := by
  unfold allAboveB
  rw [List.all_eq_false]
  constructor
  · rintro ⟨z, hz, hpz⟩
    have hb : (decide (z.id ∈ c ∧ z.status = 1) &&
        (match firstSensorTemp z with
         | none => false
         | some t => decide (t < z.desired_temperature + TEMP_ABOVE_THRESHOLD))) = true := by
      simpa using hpz
    rw [Bool.and_eq_true, decide_eq_true_eq] at hb
    refine ⟨z, hz, hb.1.1, hb.1.2, ?_⟩
    rcases hft : firstSensorTemp z with _ | t
    · rw [hft] at hb; exact absurd hb.2 (by simp)
    · rw [hft] at hb
      exact ⟨t, rfl, by simpa using hb.2⟩
  · rintro ⟨z, hz, hc, hs, t, hft, hlt⟩
    refine ⟨z, hz, ?_⟩
    have hb : (decide (z.id ∈ c ∧ z.status = 1) &&
        (match firstSensorTemp z with
         | none => false
         | some t => decide (t < z.desired_temperature + TEMP_ABOVE_THRESHOLD))) = true := by
      rw [Bool.and_eq_true, decide_eq_true_eq, hft]
      exact ⟨⟨hc, hs⟩, by simpa using hlt⟩
    simpa using hb

theorem allAboveB_eq_true_iff (c : List Nat) (s : DeviceState) :
    allAboveB c s = true ↔ ∀ z ∈ s.zones, z.id ∈ c → z.status = 1 →
      ∀ t, firstSensorTemp z = some t →
        z.desired_temperature + TEMP_ABOVE_THRESHOLD ≤ t := by
  rw [← Bool.not_eq_false, not_iff_comm, allAboveB_eq_false_iff]
  push_neg
  constructor
  · rintro ⟨z, hz, hc, hs, t, hft, hlt⟩
    exact ⟨z, hz, hc, hs, t, hft, by omega⟩
  · rintro ⟨z, hz, hc, hs, t, hft, hlt⟩
    exact ⟨z, hz, hc, hs, t, hft, by omega⟩

theorem countActive_pos_iff (c : List Nat) (s : DeviceState) :
    0 < countActive c s ↔ ∃ z ∈ s.zones, z.id ∈ c ∧ z.status = 1 := by
  unfold countActive
  rw [List.countP_pos_iff]
  simp

theorem countActive_eq_zero_iff (c : List Nat) (s : DeviceState) :
    countActive c s = 0 ↔ ∀ z ∈ s.zones, z.id ∈ c → z.status ≠ 1 := by
  unfold countActive
  rw [List.countP_eq_zero]
  simp

theorem countActive_forcedOff (c : List Nat) (s : DeviceState) :
    countActive c (stateAfterForcedOff c s) = countActive c s := by
  unfold countActive stateAfterForcedOff
  simp only [List.countP_map]
  apply List.countP_congr
  intro z _
  by_cases hc : z.id ∈ c
  · rw [Function.comp_apply, prePassZone_of_controlled hc]
  · have h1 : decide ((prePassZone c z).id ∈ c ∧ (prePassZone c z).status = 1) = false := by
      rw [decide_eq_false_iff_not]
      rintro ⟨hm, _⟩
      rw [prePassZone_id] at hm
      exact hc hm
    have h2 : decide (z.id ∈ c ∧ z.status = 1) = false := by
      rw [decide_eq_false_iff_not]
      rintro ⟨hm, _⟩
      exact hc hm
    rw [Function.comp_apply, h1, h2]

theorem mem_emitNotify {svc : String} {ok : String → Bool} {title : String} {x : Cmd}
    (h : x ∈ emitNotify svc ok title) : x = Cmd.notify svc title := by
  unfold emitNotify at h
  split at h
  · exact absurd h (List.not_mem_nil x)
  · split at h
    · simpa using h
    · exact absurd h (List.not_mem_nil x)

theorem mem_zoneActionCmds {c : List Nat} {n : Nat} {svc : String} {ok : String → Bool}
    {z : Zone} {x : Cmd} (h : x ∈ zoneActionCmds c n svc ok z) :
    x = Cmd.zoneSwitch z.id 0 ∨ x = Cmd.zoneSwitch z.id 1 ∨
      x = Cmd.notify svc ("Zone Turned Off") ∨ x = Cmd.notify svc ("Zone Turned On") := by
  unfold zoneActionCmds at h
  split at h
  · split at h
    · exact absurd h (List.not_mem_nil x)
    · split at h
      · split at h
        · split at h
          · exact absurd h (List.not_mem_nil x)
          · rcases List.mem_cons.mp h with h1 | h1
            · exact Or.inl h1
            · exact Or.inr (Or.inr (Or.inl (mem_emitNotify h1)))
        · exact absurd h (List.not_mem_nil x)
      · split at h
        · split at h
          · rcases List.mem_cons.mp h with h1 | h1
            · exact Or.inr (Or.inl h1)
            · exact Or.inr (Or.inr (Or.inr (mem_emitNotify h1)))
          · exact absurd h (List.not_mem_nil x)
        · exact absurd h (List.not_mem_nil x)
  · exact absurd h (List.not_mem_nil x)

theorem mem_prePassCmds {c : List Nat} {s : DeviceState} {x : Cmd}
    (h : x ∈ prePassCmds c s) :
    ∃ z ∈ s.zones, z.id ∉ c ∧ x = Cmd.zoneSwitch z.id 0 := by
  unfold prePassCmds at h
  rcases List.mem_map.mp h with ⟨z, hz, hx⟩
  have hm := List.mem_filter.mp hz
  rw [decide_eq_true_eq] at hm
  exact ⟨z, hm.1, hm.2.1, hx.symm⟩

theorem mem_acRuleCmds {c : List Nat} {cid svc : String} {ok : String → Bool}
    {b : Bool} {p : DeviceState} {x : Cmd} (h : x ∈ acRuleCmds c cid svc ok b p) :
    x = Cmd.climateTurnOff cid ∨ x = Cmd.climateTurnOn cid ∨
      (∃ w, x = Cmd.zoneSwitch w 1) ∨ (∃ t2, x = Cmd.notify svc t2) := by
  unfold acRuleCmds at h
  split at h
  · rcases List.mem_cons.mp h with h1 | h1
    · exact Or.inl h1
    · exact Or.inr (Or.inr (Or.inr ⟨_, mem_emitNotify h1⟩))
  · split at h
    · rcases List.mem_cons.mp h with h1 | h1
      · exact Or.inr (Or.inl h1)
      · exact Or.inr (Or.inr (Or.inr ⟨_, mem_emitNotify h1⟩))
    · split at h
      · rcases List.mem_map.mp h with ⟨z, _, hx⟩
        exact Or.inr (Or.inr (Or.inl ⟨z.id, hx.symm⟩))
      · exact absurd h (List.not_mem_nil x)

theorem mem_zonePassCmds {c : List Nat} {n : Nat} {svc : String} {ok : String → Bool}
    {s : DeviceState} {x : Cmd} :
    x ∈ zonePassCmds c n svc ok s ↔ ∃ z ∈ s.zones, x ∈ zoneActionCmds c n svc ok z := by
  unfold zonePassCmds
  rw [List.mem_flatten]
  constructor
  · rintro ⟨l, hl, hx⟩
    rcases List.mem_map.mp hl with ⟨z, hz, rfl⟩
    exact ⟨z, hz, hx⟩
  · rintro ⟨z, hz, hx⟩
    exact ⟨zoneActionCmds c n svc ok z, List.mem_map_of_mem _ hz, hx⟩

theorem mem_runCycleCmds {c : List Nat} {cid svc : String} {ok : String → Bool}
    {s : DeviceState} {x : Cmd} :
    x ∈ runCycleCmds c cid svc ok s ↔
      x ∈ prePassCmds c s ∨
      x ∈ zonePassCmds c (countActive c (stateAfterForcedOff c s)) svc ok
            (stateAfterForcedOff c s) ∨
      x ∈ acRuleCmds c cid svc ok (anyBelowB c (stateAfterForcedOff c s))
            (stateAfterZonePass c s) := by
  unfold runCycleCmds
  rw [List.mem_append, List.mem_append, or_assoc]

theorem deviceCmds_cons_emitNotify {x : Cmd} (hx : isDeviceCmd x = true)
    (svc : String) (ok : String → Bool) (t : String) :
    deviceCmds (x :: emitNotify svc ok t) = [x] := by
  unfold deviceCmds emitNotify
  split
  · simp [List.filter_cons, hx]
  · split
    · have hnot : isDeviceCmd (Cmd.notify svc t) = false := rfl
      simp [List.filter_cons, hx, hnot]
    · simp [List.filter_cons, hx]

theorem deviceCmds_zoneActionCmds (c : List Nat) (n : Nat) (svc : String)
    (ok ok2 : String → Bool) (z : Zone) :
    deviceCmds (zoneActionCmds c n svc ok z) = deviceCmds (zoneActionCmds c n svc ok2 z) := by
  unfold zoneActionCmds
  repeat' split
  all_goals
    first
      | rfl
      | (rw [deviceCmds_cons_emitNotify, deviceCmds_cons_emitNotify] <;> rfl)

theorem deviceCmds_flatten_map (c : List Nat) (n : Nat) (svc : String)
    (ok ok2 : String → Bool) (l : List Zone) :
    deviceCmds ((l.map (zoneActionCmds c n svc ok)).flatten) =
      deviceCmds ((l.map (zoneActionCmds c n svc ok2)).flatten) := by
  induction l with
  | nil => rfl
  | cons z zs ih =>
    simp only [List.map_cons, List.flatten_cons]
    unfold deviceCmds at *
    rw [List.filter_append, List.filter_append, ih]
    have h1 := deviceCmds_zoneActionCmds c n svc ok ok2 z
    unfold deviceCmds at h1
    rw [h1]

theorem deviceCmds_acRuleCmds (c : List Nat) (cid svc : String)
    (ok ok2 : String → Bool) (b : Bool) (p : DeviceState) :
    deviceCmds (acRuleCmds c cid svc ok b p) = deviceCmds (acRuleCmds c cid svc ok2 b p) := by
  unfold acRuleCmds
  repeat' split
  all_goals
    first
      | rfl
      | (rw [deviceCmds_cons_emitNotify, deviceCmds_cons_emitNotify] <;> rfl)

/-- C7: a failed notification dispatch is caught inside the cycle; the
device-mutating command trace of a cycle does not depend on which
notification dispatches fail, so every remaining zone rule and the
aggregate AC rule are still evaluated and no failure escapes the
handler. -/
theorem notify_failure_device_commands_unchanged (c : List Nat) (cid svc : String)
    (ok ok2 : String → Bool) (s : DeviceState) :
    deviceCmds (runCycleCmds c cid svc ok s) = deviceCmds (runCycleCmds c cid svc ok2 s) := by
  unfold runCycleCmds zonePassCmds deviceCmds
  rw [List.filter_append, List.filter_append, List.filter_append, List.filter_append]
  have h2 := deviceCmds_flatten_map c (countActive c (stateAfterForcedOff c s)) svc ok ok2
    (stateAfterForcedOff c s).zones
  have h3 := deviceCmds_acRuleCmds c cid svc ok ok2
    (anyBelowB c (stateAfterForcedOff c s)) (stateAfterZonePass c s)
  unfold deviceCmds at h2 h3
  rw [h2, h3]

/-- C9: a controlled zone whose sensor list is empty or whose first
sensor has no reading is skipped by the per-zone threshold rules: its
iteration of the per-zone pass issues no command, raises nothing, and
leaves the zone unchanged. -/
theorem missing_reading_zone_skipped (c : List Nat) (n : Nat) (svc : String)
    (ok : String → Bool) (z : Zone) (hc : z.id ∈ c)
    (h : z.sensors = [] ∨ firstSensorTemp z = none) :
    zoneActionCmds c n svc ok z = [] ∧ zoneStepState c n z = z := by
  have hft : firstSensorTemp z = none := by
    rcases h with h | h
    · unfold firstSensorTemp; rw [h]
    · exact h
  constructor
  · unfold zoneActionCmds
    rw [if_pos hc, hft]
  · unfold zoneStepState
    rw [if_pos hc, hft]

/-- C9 witness: a controlled zone with no sensors is skipped. -/
theorem missing_reading_zone_skipped_witness :
    zoneActionCmds [1] 1 ("n") (fun _ => true) ⟨1, ("a"), 1, 22, []⟩ = [] ∧
      zoneStepState [1] 1 ⟨1, ("a"), 1, 22, []⟩ = ⟨1, ("a"), 1, 22, []⟩ :=
  missing_reading_zone_skipped [1] 1 ("n") (fun _ => true) ⟨1, ("a"), 1, 22, []⟩
    (by decide) (Or.inl rfl)

/-- C5: when the aggregate AC-off condition holds on the re-read state
(AC on, positive active count, all active controlled zones at or above
threshold), the aggregate stage issues the climate turn-off command and
does not issue the climate turn-on command, whatever the value of the
below-threshold flag. -/
theorem ac_off_priority_over_ac_on (c : List Nat) (cid svc : String) (ok : String → Bool)
    (anyB : Bool) (p : DeviceState) (hall : allAboveB c p = true)
    (hcount : 0 < countActive c p) (hpow : p.power = 1) :
    Cmd.climateTurnOff cid ∈ acRuleCmds c cid svc ok anyB p ∧
      Cmd.climateTurnOn cid ∉ acRuleCmds c cid svc ok anyB p := by
  have hcond : allAboveB c p = true ∧ 0 < countActive c p ∧ p.power = 1 :=
    ⟨hall, hcount, hpow⟩
  constructor
  · unfold acRuleCmds
    rw [if_pos hcond]
    exact List.mem_cons_self _ _
  · intro hmem
    unfold acRuleCmds at hmem
    rw [if_pos hcond] at hmem
    rcases List.mem_cons.mp hmem with h1 | h1
    · exact absurd h1 (by simp)
    · exact absurd (mem_emitNotify h1) (by simp)

/-- C5 witness: a concrete re-read state with the AC on and one active
controlled zone without a reading, with the below-threshold flag set. -/
theorem ac_off_priority_over_ac_on_witness :
    Cmd.climateTurnOff ("e") ∈
        acRuleCmds [1] ("e") ("") (fun _ => true) true ⟨1, [⟨1, ("a"), 1, 22, []⟩]⟩ ∧
      Cmd.climateTurnOn ("e") ∉
        acRuleCmds [1] ("e") ("") (fun _ => true) true ⟨1, [⟨1, ("a"), 1, 22, []⟩]⟩ :=
  ac_off_priority_over_ac_on [1] ("e") ("") (fun _ => true) true
    ⟨1, [⟨1, ("a"), 1, 22, []⟩]⟩ (by decide) (by decide) rfl

theorem anyBelowB_iff (c : List Nat) (s : DeviceState) :
    anyBelowB c s = true ↔ ∃ z ∈ s.zones, z.id ∈ c ∧ ∃ t, firstSensorTemp z = some t ∧
      t ≤ z.desired_temperature - TEMP_BELOW_THRESHOLD := by
  unfold anyBelowB
  rw [List.any_eq_true]
  constructor
  · rintro ⟨z, hz, hf⟩
    have h := zoneBelowFlag_elim hf
    exact ⟨z, hz, h.1, h.2⟩
  · rintro ⟨z, hz, hc, t, hft, hb⟩
    exact ⟨z, hz, zoneBelowFlag_intro hc hft hb⟩

theorem acRuleState_zones (c : List Nat) (b : Bool) (p : DeviceState) :
    (acRuleState c b p).zones = p.zones ∨
      (acRuleState c b p).zones = p.zones.map (ruleFiveZone c) := by
  unfold acRuleState
  repeat' split
  all_goals
    first
      | exact Or.inl rfl
      | exact Or.inr rfl

theorem ruleFiveZone_status_one {c : List Nat} {z : Zone} (h : z.status = 1) :
    (ruleFiveZone c z).status = 1 := by
  unfold ruleFiveZone
  rw [if_neg]
  · exact h
  · rintro ⟨_, h0⟩
    rw [h] at h0
    exact absurd h0 (by decide)

theorem stateAfterZonePass_zones (c : List Nat) (s : DeviceState) :
    (stateAfterZonePass c s).zones =
      (stateAfterForcedOff c s).zones.map
        (zoneStepState c (countActive c (stateAfterForcedOff c s))) := rfl

/-- C2: after the per-zone actions and the forced re-read, if the AC is
on, the number of active controlled zones is positive, and every active
controlled zone with a reading is at or above its high threshold, the
cycle issues exactly one climate turn-off command for the resolved
climate entity. -/
theorem all_above_turns_ac_off_once (c : List Nat) (cid svc : String)
    (ok : String → Bool) (s : DeviceState)
    (hp : (stateAfterZonePass c s).power = 1)
    (hcount : 0 < countActive c (stateAfterZonePass c s))
    (hall : ∀ z ∈ (stateAfterZonePass c s).zones, z.id ∈ c → z.status = 1 →
      ∀ t, firstSensorTemp z = some t →
        z.desired_temperature + TEMP_ABOVE_THRESHOLD ≤ t) :
    (runCycleCmds c cid svc ok s).count (Cmd.climateTurnOff cid) = 1 := by
  have hallB : allAboveB c (stateAfterZonePass c s) = true :=
    (allAboveB_eq_true_iff c (stateAfterZonePass c s)).mpr hall
  unfold runCycleCmds
  rw [List.count_append, List.count_append]
  have h1 : (prePassCmds c s).count (Cmd.climateTurnOff cid) = 0 := by
    rw [List.count_eq_zero]
    intro hmem
    rcases mem_prePassCmds hmem with ⟨z, _, _, heq⟩
    exact absurd heq (by simp)
  have h2 : (zonePassCmds c (countActive c (stateAfterForcedOff c s)) svc ok
      (stateAfterForcedOff c s)).count (Cmd.climateTurnOff cid) = 0 := by
    rw [List.count_eq_zero]
    intro hmem
    rcases mem_zonePassCmds.mp hmem with ⟨z, _, hzx⟩
    rcases mem_zoneActionCmds hzx with h | h | h | h <;> exact absurd h (by simp)
  have h3 : (acRuleCmds c cid svc ok (anyBelowB c (stateAfterForcedOff c s))
      (stateAfterZonePass c s)).count (Cmd.climateTurnOff cid) = 1 := by
    unfold acRuleCmds
    rw [if_pos ⟨hallB, hcount, hp⟩, List.count_cons_self]
    have h4 : (emitNotify svc ok ("AC Turned Off")).count (Cmd.climateTurnOff cid) = 0 := by
      rw [List.count_eq_zero]
      intro hmem
      exact absurd (mem_emitNotify hmem) (by simp)
    rw [h4]
  rw [h1, h2, h3]

/-- C2 witness: one active controlled zone above threshold, AC on. -/
theorem all_above_turns_ac_off_once_witness :
    (runCycleCmds [1] ("climate.x") ("") (fun _ => true)
        ⟨1, [⟨1, ("a"), 1, 22, [⟨some 24⟩]⟩, ⟨2, ("b"), 1, 20, [⟨some 26⟩]⟩]⟩).count
      (Cmd.climateTurnOff ("climate.x")) = 1 :=
  all_above_turns_ac_off_once [1] ("climate.x") ("") (fun _ => true)
    ⟨1, [⟨1, ("a"), 1, 22, [⟨some 24⟩]⟩, ⟨2, ("b"), 1, 20, [⟨some 26⟩]⟩]⟩
    rfl (by decide) (by decide)

/-- C10: in the aggregate re-check an active controlled zone without a
reading is counted but cannot falsify the all-above check; with the AC
on, a positive active count, and no active controlled zone having a
reading, the AC-off rule fires. -/
theorem no_reading_zones_allow_ac_off (c : List Nat) (cid svc : String)
    (ok : String → Bool) (s : DeviceState)
    (hp : (stateAfterZonePass c s).power = 1)
    (hcount : 0 < countActive c (stateAfterZonePass c s))
    (hnone : ∀ z ∈ (stateAfterZonePass c s).zones, z.id ∈ c → z.status = 1 →
      firstSensorTemp z = none) :
    allAboveB c (stateAfterZonePass c s) = true ∧
      Cmd.climateTurnOff cid ∈ runCycleCmds c cid svc ok s := by
  have hallB : allAboveB c (stateAfterZonePass c s) = true := by
    rw [allAboveB_eq_true_iff]
    intro z hz hc hs t hft
    rw [hnone z hz hc hs] at hft
    exact absurd hft (by simp)
  refine ⟨hallB, ?_⟩
  apply mem_runCycleCmds.mpr
  right; right
  unfold acRuleCmds
  rw [if_pos ⟨hallB, hcount, hp⟩]
  exact List.mem_cons_self _ _

/-- C10 witness: AC on, one active controlled zone with no sensors. -/
theorem no_reading_zones_allow_ac_off_witness :
    allAboveB [1] (stateAfterZonePass [1] ⟨1, [⟨1, ("a"), 1, 22, []⟩]⟩) = true ∧
      Cmd.climateTurnOff ("climate.x") ∈
        runCycleCmds [1] ("climate.x") ("") (fun _ => true) ⟨1, [⟨1, ("a"), 1, 22, []⟩]⟩ :=
  no_reading_zones_allow_ac_off [1] ("climate.x") ("") (fun _ => true)
    ⟨1, [⟨1, ("a"), 1, 22, []⟩]⟩ rfl (by decide) (by decide)

/-- C3 counterexample: with the AC off and a single controlled zone that
is ON with a reading two degrees below its desired temperature, the
cycle issues the climate turn-on command even though no controlled zone
is off, contradicting the claim that only off zones mark the
below-threshold flag. -/
theorem ac_turn_on_without_off_zone_cx :
    runCycleCmds [1] ("climate.x") ("") (fun _ => true)
        ⟨0, [⟨1, ("a"), 1, 22, [⟨some 19⟩]⟩]⟩ = [Cmd.climateTurnOn ("climate.x")] ∧
      ∀ z ∈ (⟨0, [⟨1, ("a"), 1, 22, [⟨some 19⟩]⟩]⟩ : DeviceState).zones, z.status ≠ 0 := by
  exact ⟨by decide, by decide⟩

/-- C3 amended: the cycle issues the aggregate AC turn-on command if and
only if the AC is off and some controlled zone with a reading is at or
below its low threshold, regardless of that zone's on/off status. -/
theorem ac_turn_on_iff_any_below_and_ac_off (c : List Nat) (cid svc : String)
    (ok : String → Bool) (s : DeviceState) :
    Cmd.climateTurnOn cid ∈ runCycleCmds c cid svc ok s ↔
      ((∃ z ∈ (stateAfterForcedOff c s).zones, z.id ∈ c ∧
          ∃ t, firstSensorTemp z = some t ∧
            t ≤ z.desired_temperature - TEMP_BELOW_THRESHOLD) ∧ s.power ≠ 1) := by
  constructor
  · intro hmem
    rcases mem_runCycleCmds.mp hmem with h | h | h
    · rcases mem_prePassCmds h with ⟨z, _, _, heq⟩
      exact absurd heq (by simp)
    · rcases mem_zonePassCmds.mp h with ⟨z, _, hzx⟩
      rcases mem_zoneActionCmds hzx with h1 | h1 | h1 | h1 <;> exact absurd h1 (by simp)
    · unfold acRuleCmds at h
      split at h
      · rcases List.mem_cons.mp h with h1 | h1
        · exact absurd h1 (by simp)
        · exact absurd (mem_emitNotify h1) (by simp)
      · split at h
        · rename_i hcond
          exact ⟨(anyBelowB_iff c (stateAfterForcedOff c s)).mp hcond.1, hcond.2⟩
        · split at h
          · rcases List.mem_map.mp h with ⟨z, _, heq⟩
            exact absurd heq.symm (by simp)
          · exact absurd h (List.not_mem_nil _)
  · rintro ⟨hex, hpow⟩
    have hb : anyBelowB c (stateAfterForcedOff c s) = true :=
      (anyBelowB_iff c (stateAfterForcedOff c s)).mpr hex
    apply mem_runCycleCmds.mpr
    right; right
    unfold acRuleCmds
    rw [if_neg, if_pos ⟨hb, hpow⟩]
    · exact List.mem_cons_self _ _
    · rintro ⟨_, _, hpw⟩
      exact hpow hpw

/-- C6: a controlled zone that is off at per-zone evaluation time with
a first sensor reading at or below its low threshold receives a
switch-on command, and its status after the cycle is on. -/
theorem zone_below_turns_on (c : List Nat) (cid svc : String) (ok : String → Bool)
    (s : DeviceState) (i : Nat)
    (hi : i < (stateAfterForcedOff c s).zones.length)
    (hif : i < (runCycleState c s).zones.length)
    (hc : ((stateAfterForcedOff c s).zones[i]).id ∈ c) (t : Int)
    (hft : firstSensorTemp ((stateAfterForcedOff c s).zones[i]) = some t)
    (hb : t ≤ ((stateAfterForcedOff c s).zones[i]).desired_temperature -
      TEMP_BELOW_THRESHOLD)
    (hoff : ((stateAfterForcedOff c s).zones[i]).status = 0) :
    Cmd.zoneSwitch ((stateAfterForcedOff c s).zones[i]).id 1 ∈
        runCycleCmds c cid svc ok s ∧
      ((runCycleState c s).zones[i]).status = 1 := by
  have hnotAbove : ¬ t ≥ ((stateAfterForcedOff c s).zones[i]).desired_temperature +
      TEMP_ABOVE_THRESHOLD := by
    unfold TEMP_ABOVE_THRESHOLD TEMP_BELOW_THRESHOLD at *
    omega
  have hstep : zoneStepState c (countActive c (stateAfterForcedOff c s))
      ((stateAfterForcedOff c s).zones[i]) =
      { (stateAfterForcedOff c s).zones[i] with status := 1 } := by
    unfold zoneStepState
    rw [if_pos hc, hft]
    dsimp only
    rw [if_neg hnotAbove, if_pos hb, if_pos hoff]
  constructor
  · apply mem_runCycleCmds.mpr
    right; left
    apply mem_zonePassCmds.mpr
    refine ⟨(stateAfterForcedOff c s).zones[i], List.getElem_mem hi, ?_⟩
    unfold zoneActionCmds
    rw [if_pos hc, hft]
    dsimp only
    rw [if_neg hnotAbove, if_pos hb, if_pos hoff]
    exact List.mem_cons_self _ _
  · have hplen : i < (stateAfterZonePass c s).zones.length := by
      rw [stateAfterZonePass_zones, List.length_map]
      exact hi
    have hpget : ((stateAfterZonePass c s).zones[i]).status = 1 := by
      have h2 : (stateAfterZonePass c s).zones[i] =
          zoneStepState c (countActive c (stateAfterForcedOff c s))
            ((stateAfterForcedOff c s).zones[i]) := by
        simp only [stateAfterZonePass_zones, List.getElem_map]
      rw [h2, hstep]
    rcases acRuleState_zones c (anyBelowB c (stateAfterForcedOff c s))
        (stateAfterZonePass c s) with hz | hz
    · have h4 : (runCycleState c s).zones[i] = (stateAfterZonePass c s).zones[i] := by
        simp only [runCycleState, hz]
      rw [h4]
      exact hpget
    · have h4 : (runCycleState c s).zones[i] =
          ruleFiveZone c ((stateAfterZonePass c s).zones[i]) := by
        simp only [runCycleState, hz, List.getElem_map]
      rw [h4]
      exact ruleFiveZone_status_one hpget

/-- C6 witness: one controlled off zone at 17 degrees with desired 20. -/
theorem zone_below_turns_on_witness :
    Cmd.zoneSwitch 1 1 ∈ runCycleCmds [1] ("e") ("") (fun _ => true)
        ⟨1, [⟨1, ("a"), 0, 20, [⟨some 17⟩]⟩]⟩ ∧
      ((runCycleState [1] ⟨1, [⟨1, ("a"), 0, 20, [⟨some 17⟩]⟩]⟩).zones.get
        ⟨0, by decide⟩).status = 1 := by
  have h := zone_below_turns_on [1] ("e") ("") (fun _ => true)
    ⟨1, [⟨1, ("a"), 0, 20, [⟨some 17⟩]⟩]⟩ 0 (by decide) (by decide) (by decide) 17
    (by decide) (by decide) (by decide)
  exact ⟨h.1, h.2⟩

theorem no_switch_off_in_sole_zoneAction {c : List Nat} {svc : String}
    {ok : String → Bool} {z : Zone} {w : Nat}
    (h : Cmd.zoneSwitch w 0 ∈ zoneActionCmds c 1 svc ok z) : False := by
  unfold zoneActionCmds at h
  split at h
  · split at h
    · exact absurd h (List.not_mem_nil _)
    · split at h
      · split at h
        · split at h
          · exact absurd h (List.not_mem_nil _)
          · rename_i hne
            exact hne rfl
        · exact absurd h (List.not_mem_nil _)
      · split at h
        · split at h
          · rcases List.mem_cons.mp h with h5 | h5
            · exact absurd h5 (by simp)
            · exact absurd (mem_emitNotify h5) (by simp)
          · exact absurd h (List.not_mem_nil _)
        · exact absurd h (List.not_mem_nil _)
  · exact absurd h (List.not_mem_nil _)

/-- C1: a controlled zone that is on with a reading at or above its
high threshold is switched off when at least one other controlled zone
is active (pre-loop active count at least two); when it is the sole
active controlled zone, no switch-off command for it is issued in the
whole cycle and its status stays on, shutdown being left to the
aggregate AC-off rule. -/
theorem zone_above_off_unless_sole_active (c : List Nat) (cid svc : String)
    (ok : String → Bool) (s : DeviceState) (i : Nat)
    (hi : i < (stateAfterForcedOff c s).zones.length)
    (hif : i < (runCycleState c s).zones.length)
    (hc : ((stateAfterForcedOff c s).zones[i]).id ∈ c) (t : Int)
    (hft : firstSensorTemp ((stateAfterForcedOff c s).zones[i]) = some t)
    (habove : t ≥ ((stateAfterForcedOff c s).zones[i]).desired_temperature +
      TEMP_ABOVE_THRESHOLD)
    (hon : ((stateAfterForcedOff c s).zones[i]).status = 1) :
    (2 ≤ countActive c (stateAfterForcedOff c s) →
      Cmd.zoneSwitch ((stateAfterForcedOff c s).zones[i]).id 0 ∈
        runCycleCmds c cid svc ok s) ∧
    (countActive c (stateAfterForcedOff c s) = 1 →
      (Cmd.zoneSwitch ((stateAfterForcedOff c s).zones[i]).id 0 ∉
        runCycleCmds c cid svc ok s) ∧
      ((runCycleState c s).zones[i]).status = 1) := by
  constructor
  · intro h2
    apply mem_runCycleCmds.mpr
    right; left
    apply mem_zonePassCmds.mpr
    refine ⟨(stateAfterForcedOff c s).zones[i], List.getElem_mem hi, ?_⟩
    unfold zoneActionCmds
    rw [if_pos hc, hft]
    dsimp only
    rw [if_pos habove, if_pos hon, if_neg (by omega)]
    exact List.mem_cons_self _ _
  · intro h1
    constructor
    · intro hmem
      rcases mem_runCycleCmds.mp hmem with h | h | h
      · rcases mem_prePassCmds h with ⟨z, _, hznc, heq⟩
        have hid : ((stateAfterForcedOff c s).zones[i]).id = z.id := by
          simpa using heq
        rw [hid] at hc
        exact hznc hc
      · rcases mem_zonePassCmds.mp h with ⟨z, _, hzx⟩
        rw [h1] at hzx
        exact no_switch_off_in_sole_zoneAction hzx
      · rcases mem_acRuleCmds h with h4 | h4 | ⟨w, h4⟩ | ⟨t2, h4⟩
        · exact absurd h4 (by simp)
        · exact absurd h4 (by simp)
        · exact absurd h4 (by simp)
        · exact absurd h4 (by simp)
    · have hstep : zoneStepState c (countActive c (stateAfterForcedOff c s))
          ((stateAfterForcedOff c s).zones[i]) =
          (stateAfterForcedOff c s).zones[i] := by
        unfold zoneStepState
        rw [if_pos hc, hft]
        dsimp only
        rw [if_pos habove, if_neg]
        rintro ⟨_, hne⟩
        exact hne h1
      have hplen : i < (stateAfterZonePass c s).zones.length := by
        rw [stateAfterZonePass_zones, List.length_map]
        exact hi
      have hpget : ((stateAfterZonePass c s).zones[i]).status = 1 := by
        have h2 : (stateAfterZonePass c s).zones[i] =
            zoneStepState c (countActive c (stateAfterForcedOff c s))
              ((stateAfterForcedOff c s).zones[i]) := by
          simp only [stateAfterZonePass_zones, List.getElem_map]
        rw [h2, hstep]
        exact hon
      rcases acRuleState_zones c (anyBelowB c (stateAfterForcedOff c s))
          (stateAfterZonePass c s) with hz | hz
      · have h4 : (runCycleState c s).zones[i] = (stateAfterZonePass c s).zones[i] := by
          simp only [runCycleState, hz]
        rw [h4]
        exact hpget
      · have h4 : (runCycleState c s).zones[i] =
            ruleFiveZone c ((stateAfterZonePass c s).zones[i]) := by
          simp only [runCycleState, hz, List.getElem_map]
        rw [h4]
        exact ruleFiveZone_status_one hpget

/-- C1 witness: a sole active controlled zone above threshold keeps its
zone switch and stays on. -/
theorem zone_above_off_unless_sole_active_witness :
    (Cmd.zoneSwitch 1 0 ∉ runCycleCmds [1] ("e") ("") (fun _ => true)
        ⟨1, [⟨1, ("a"), 1, 22, [⟨some 24⟩]⟩]⟩) ∧
      ((runCycleState [1] ⟨1, [⟨1, ("a"), 1, 22, [⟨some 24⟩]⟩]⟩).zones.get
        ⟨0, by decide⟩).status = 1 := by
  have h := (zone_above_off_unless_sole_active [1] ("e") ("") (fun _ => true)
    ⟨1, [⟨1, ("a"), 1, 22, [⟨some 24⟩]⟩]⟩ 0 (by decide) (by decide) (by decide) 24
    (by decide) (by decide) (by decide)).2 (by decide)
  exact ⟨h.1, h.2⟩

/-- C8: every precondition failure of the handler (automation toggle
absent or not on, no climate entity resolvable, integration domain
absent from the host data, or zero controlled zones resolved) makes the
cycle end early with no device command issued and nothing raised. -/
theorem precondition_failure_no_commands (env : ServiceEnv) (s : DeviceState)
    (h : env.automationState ≠ some ("on") ∨ resolvedClimate env = none ∨
      env.hassData = none ∨ controlledZoneIds env s.zones = []) :
    handle_smart_control env s = [] := by
  unfold handle_smart_control
  by_cases h1 : env.automationState ≠ some ("on")
  · rw [if_pos h1]
  · rw [if_neg h1]
    rcases h with h | h | h | h
    · exact absurd h h1
    · rw [h]
    · cases hclim : resolvedClimate env with
      | none => rfl
      | some cid =>
        dsimp only
        by_cases h2 : cid ∉ env.statesPresent
        · rw [if_pos h2]
        · rw [if_neg h2, h]
    · cases hclim : resolvedClimate env with
      | none => rfl
      | some cid =>
        dsimp only
        by_cases h2 : cid ∉ env.statesPresent
        · rw [if_pos h2]
        · rw [if_neg h2]
          cases hd : env.hassData with
          | none => rfl
          | some entries =>
            dsimp only
            by_cases h3 : entries = []
            · rw [if_pos h3]
            · rw [if_neg h3]
              simp [h]

/-- C8 witness: the automation toggle is absent. -/
theorem precondition_failure_no_commands_witness :
    handle_smart_control ⟨none, none, none, [], [], none, [], [], fun _ => true⟩
      ⟨0, []⟩ = [] :=
  precondition_failure_no_commands ⟨none, none, none, [], [], none, [], [], fun _ => true⟩
    ⟨0, []⟩ (Or.inl (by simp))

theorem anyBelowB_zones_eq {c : List Nat} {s2 s3 : DeviceState}
    (h : s2.zones = s3.zones) : anyBelowB c s2 = anyBelowB c s3 := by
  unfold anyBelowB
  rw [h]

theorem anyBelowB_forcedOff (c : List Nat) (s : DeviceState) :
    anyBelowB c (stateAfterForcedOff c s) = anyBelowB c s :=
  anyBelow_map c (prePassZone c) (prePassZone_id c) (prePassZone_firstTemp c)
    (prePassZone_desired c) s.zones

theorem anyBelowB_zonePass (c : List Nat) (s : DeviceState) :
    anyBelowB c (stateAfterZonePass c s) = anyBelowB c s := by
  have h1 : anyBelowB c (stateAfterZonePass c s) =
      ((stateAfterForcedOff c s).zones.map
        (zoneStepState c (countActive c (stateAfterForcedOff c s)))).any
        (zoneBelowFlag c) := rfl
  rw [h1,
    anyBelow_map c _ (zoneStepState_id c _) (zoneStepState_firstTemp c _)
      (zoneStepState_desired c _)]
  exact anyBelowB_forcedOff c s

theorem anyBelowB_runCycleState (c : List Nat) (s : DeviceState) :
    anyBelowB c (runCycleState c s) = anyBelowB c s := by
  unfold runCycleState
  rcases acRuleState_zones c (anyBelowB c (stateAfterForcedOff c s))
      (stateAfterZonePass c s) with hz | hz
  · rw [anyBelowB_zones_eq (c := c) hz]
    exact anyBelowB_zonePass c s
  · have h1 : anyBelowB c (acRuleState c (anyBelowB c (stateAfterForcedOff c s))
        (stateAfterZonePass c s)) =
        anyBelowB c ⟨0, (stateAfterZonePass c s).zones.map (ruleFiveZone c)⟩ :=
      anyBelowB_zones_eq hz
    have h2 : anyBelowB c ⟨0, (stateAfterZonePass c s).zones.map (ruleFiveZone c)⟩ =
        anyBelowB c (stateAfterZonePass c s) :=
      anyBelow_map c _ (ruleFiveZone_id c) (ruleFiveZone_firstTemp c)
        (ruleFiveZone_desired c) (stateAfterZonePass c s).zones
    rw [h1, h2]
    exact anyBelowB_zonePass c s

theorem statusWF_forcedOff {c : List Nat} {s : DeviceState} (hwf : statusWF s) :
    statusWF (stateAfterForcedOff c s) := by
  intro z hz
  rcases List.mem_map.mp hz with ⟨w, hw, rfl⟩
  rcases prePassZone_status c w with h0 | h0
  · exact Or.inl h0
  · rw [h0]
    exact hwf w hw

theorem below_witness_zone {c : List Nat} {s : DeviceState}
    (hwf : statusWF (stateAfterForcedOff c s))
    (hb : anyBelowB c (stateAfterForcedOff c s) = true) :
    ∃ z ∈ (stateAfterZonePass c s).zones, z.id ∈ c ∧ z.status = 1 ∧
      ∃ t, firstSensorTemp z = some t ∧
        t ≤ z.desired_temperature - TEMP_BELOW_THRESHOLD := by
  rcases (anyBelowB_iff c (stateAfterForcedOff c s)).mp hb with ⟨w, hw, hcw, t, hft, hbt⟩
  have hnotAbove : ¬ t ≥ w.desired_temperature + TEMP_ABOVE_THRESHOLD := by
    unfold TEMP_ABOVE_THRESHOLD TEMP_BELOW_THRESHOLD at *
    omega
  have hz : zoneStepState c (countActive c (stateAfterForcedOff c s)) w ∈
      (stateAfterZonePass c s).zones := by
    rw [stateAfterZonePass_zones]
    exact List.mem_map_of_mem _ hw
  have hstat : (zoneStepState c (countActive c (stateAfterForcedOff c s)) w).status = 1 := by
    unfold zoneStepState
    rw [if_pos hcw, hft]
    dsimp only
    rw [if_neg hnotAbove, if_pos hbt]
    rcases hwf w hw with h0 | h0
    · rw [if_pos h0]
    · rw [if_neg]
      · exact h0
      · rw [h0]
        exact one_ne_zero
  refine ⟨zoneStepState c (countActive c (stateAfterForcedOff c s)) w, hz, ?_, hstat, t, ?_, ?_⟩
  · rw [zoneStepState_id]
    exact hcw
  · rw [zoneStepState_firstTemp]
    exact hft
  · rw [zoneStepState_desired]
    exact hbt

theorem below_witness_active {c : List Nat} {s : DeviceState}
    (hwf : statusWF (stateAfterForcedOff c s))
    (hb : anyBelowB c (stateAfterForcedOff c s) = true) :
    allAboveB c (stateAfterZonePass c s) = false := by
  rcases below_witness_zone hwf hb with ⟨z, hz, hc, hs, t, hft, hbt⟩
  rw [allAboveB_eq_false_iff]
  refine ⟨z, hz, hc, hs, t, hft, ?_⟩
  unfold TEMP_ABOVE_THRESHOLD TEMP_BELOW_THRESHOLD at *
  omega

theorem on_below_survives {c : List Nat} {s : DeviceState} {z : Zone} {t : Int}
    (hz : z ∈ s.zones) (hcz : z.id ∈ c) (hst : z.status = 1)
    (hft : firstSensorTemp z = some t)
    (hlt : t < z.desired_temperature + TEMP_ABOVE_THRESHOLD) :
    allAboveB c (stateAfterZonePass c s) = false := by
  have hnotAbove : ¬ t ≥ z.desired_temperature + TEMP_ABOVE_THRESHOLD := by omega
  have hpre : prePassZone c z = z := prePassZone_of_controlled hcz
  have hmem1 : prePassZone c z ∈ (stateAfterForcedOff c s).zones :=
    List.mem_map_of_mem _ hz
  rw [hpre] at hmem1
  have hstep : zoneStepState c (countActive c (stateAfterForcedOff c s)) z = z := by
    unfold zoneStepState
    rw [if_pos hcz, hft]
    dsimp only
    rw [if_neg hnotAbove]
    split
    · rw [if_neg]
      rw [hst]
      exact one_ne_zero
    · rfl
  have hmem2 : z ∈ (stateAfterZonePass c s).zones := by
    have h5 : zoneStepState c (countActive c (stateAfterForcedOff c s)) z ∈
        (stateAfterZonePass c s).zones := by
      rw [stateAfterZonePass_zones]
      exact List.mem_map_of_mem _ hmem1
    rwa [hstep] at h5
  rw [allAboveB_eq_false_iff]
  exact ⟨z, hmem2, hcz, hst, t, hft, hlt⟩

theorem stepped_on_cases {c : List Nat} {n : Nat} {v : Zone}
    (h : (zoneStepState c n v).status = 1) :
    v.status = 1 ∨ ∃ t, firstSensorTemp v = some t ∧
      t ≤ v.desired_temperature - TEMP_BELOW_THRESHOLD := by
  unfold zoneStepState at h
  split at h
  · split at h
    · exact Or.inl h
    · rename_i t heq
      split at h
      · split at h
        · exact absurd h (by simp)
        · exact Or.inl h
      · split at h
        · rename_i hle
          split at h
          · exact Or.inr ⟨t, heq, hle⟩
          · exact Or.inl h
        · exact Or.inl h
  · exact Or.inl h

theorem acRuleCmds_filter_climate_nil {c : List Nat} {cid svc : String}
    {ok : String → Bool} {b : Bool} {p : DeviceState}
    (h1 : ¬(allAboveB c p = true ∧ 0 < countActive c p ∧ p.power = 1))
    (h2 : ¬(b = true ∧ p.power ≠ 1)) :
    (acRuleCmds c cid svc ok b p).filter isClimateCmd = [] := by
  unfold acRuleCmds
  rw [if_neg h1, if_neg h2]
  split
  · rw [List.filter_eq_nil_iff]
    intro x hx
    rcases List.mem_map.mp hx with ⟨z, _, rfl⟩
    simp [isClimateCmd]
  · rfl

theorem climate_filter_runCycle (c : List Nat) (cid svc : String) (ok : String → Bool)
    (s : DeviceState) :
    (runCycleCmds c cid svc ok s).filter isClimateCmd =
      (acRuleCmds c cid svc ok (anyBelowB c (stateAfterForcedOff c s))
        (stateAfterZonePass c s)).filter isClimateCmd := by
  unfold runCycleCmds
  rw [List.filter_append, List.filter_append]
  have h1 : (prePassCmds c s).filter isClimateCmd = [] := by
    rw [List.filter_eq_nil_iff]
    intro x hx
    rcases mem_prePassCmds hx with ⟨z, _, _, rfl⟩
    simp [isClimateCmd]
  have h2 : (zonePassCmds c (countActive c (stateAfterForcedOff c s)) svc ok
      (stateAfterForcedOff c s)).filter isClimateCmd = [] := by
    rw [List.filter_eq_nil_iff]
    intro x hx
    rcases mem_zonePassCmds.mp hx with ⟨z, _, hzx⟩
    rcases mem_zoneActionCmds hzx with h | h | h | h <;> (rw [h]; simp [isClimateCmd])
  rw [h1, h2]
  rfl

/-- C4 amended: with every command of the first cycle reflected in the
state and unchanged sensor readings, a second cycle (for well-formed
zone statuses) never issues an AC power command; it may still issue
zone-switch commands. -/
theorem second_cycle_no_ac_power_command (c : List Nat) (cid svc : String)
    (ok : String → Bool) (s : DeviceState) (hwf : statusWF s) :
    (runCycleCmds c cid svc ok (runCycleState c s)).filter isClimateCmd = [] := by
  have hwa : statusWF (stateAfterForcedOff c s) := statusWF_forcedOff hwf
  rw [climate_filter_runCycle]
  set s1 := runCycleState c s with hs1def
  have hb2 : anyBelowB c (stateAfterForcedOff c s1) =
      anyBelowB c (stateAfterForcedOff c s) := by
    rw [anyBelowB_forcedOff, anyBelowB_forcedOff]
    exact anyBelowB_runCycleState c s
  by_cases hP1 : allAboveB c (stateAfterZonePass c s) = true ∧
      0 < countActive c (stateAfterZonePass c s) ∧ (stateAfterZonePass c s).power = 1
  · have hs1 : s1 = { stateAfterZonePass c s with power := 0 } := by
      rw [hs1def]
      unfold runCycleState acRuleState
      rw [if_pos hP1]
    have hpw2 : (stateAfterZonePass c s1).power = 0 := by
      rw [show (stateAfterZonePass c s1).power = s1.power from rfl, hs1]
    refine acRuleCmds_filter_climate_nil ?_ ?_
    · rintro ⟨_, _, hp1⟩
      rw [hpw2] at hp1
      exact absurd hp1 (by decide)
    · rintro ⟨hbt, _⟩
      rw [hb2] at hbt
      have hf := below_witness_active hwa hbt
      exact absurd hP1.1 (by simp [hf])
  · by_cases hP2 : anyBelowB c (stateAfterForcedOff c s) = true ∧
        (stateAfterZonePass c s).power ≠ 1
    · have hs1 : s1 = { stateAfterZonePass c s with power := 1 } := by
        rw [hs1def]
        unfold runCycleState acRuleState
        rw [if_neg hP1, if_pos hP2]
      have hzs1 : s1.zones = (stateAfterZonePass c s).zones := by rw [hs1]
      have hpw2 : (stateAfterZonePass c s1).power = 1 := by
        rw [show (stateAfterZonePass c s1).power = s1.power from rfl, hs1]
      rcases below_witness_zone hwa hP2.1 with ⟨z, hzm, hzc, hzst, t, hzft, hzbt⟩
      have hzmem1 : z ∈ s1.zones := by
        rw [hzs1]
        exact hzm
      have hallFalse : allAboveB c (stateAfterZonePass c s1) = false :=
        on_below_survives hzmem1 hzc hzst hzft
          (by unfold TEMP_ABOVE_THRESHOLD TEMP_BELOW_THRESHOLD at *; omega)
      refine acRuleCmds_filter_climate_nil ?_ ?_
      · rintro ⟨hall2, _, _⟩
        exact absurd hall2 (by simp [hallFalse])
      · rintro ⟨_, hne⟩
        exact hne hpw2
    · by_cases hP3 : (stateAfterZonePass c s).power ≠ 1
      · have hs1 : s1 = { stateAfterZonePass c s with
            zones := List.map (ruleFiveZone c) (stateAfterZonePass c s).zones } := by
          rw [hs1def]
          unfold runCycleState acRuleState
          rw [if_neg hP1, if_neg hP2, if_pos hP3]
        have hpw2 : (stateAfterZonePass c s1).power = (stateAfterZonePass c s).power := by
          rw [show (stateAfterZonePass c s1).power = s1.power from rfl, hs1]
        refine acRuleCmds_filter_climate_nil ?_ ?_
        · rintro ⟨_, _, hp1⟩
          rw [hpw2] at hp1
          exact hP3 hp1
        · rintro ⟨hbt, _⟩
          rw [hb2] at hbt
          exact hP2 ⟨hbt, hP3⟩
      · push_neg at hP3
        have hs1 : s1 = stateAfterZonePass c s := by
          rw [hs1def]
          unfold runCycleState acRuleState
          rw [if_neg hP1, if_neg hP2, if_neg (by intro hx; exact hx hP3)]
        have hpw2 : (stateAfterZonePass c s1).power = 1 := by
          rw [show (stateAfterZonePass c s1).power = s1.power from rfl, hs1]
          exact hP3
        refine acRuleCmds_filter_climate_nil ?_ ?_
        · rintro ⟨hall2, hcnt2, _⟩
          by_cases hall1 : allAboveB c (stateAfterZonePass c s) = true
          · have hcnt0 : countActive c (stateAfterZonePass c s) = 0 := by
              by_contra hx
              exact hP1 ⟨hall1, by omega, hP3⟩
            rcases (countActive_pos_iff c (stateAfterZonePass c s1)).mp hcnt2 with
              ⟨z2, hz2m, hz2c, hz2s⟩
            rw [stateAfterZonePass_zones] at hz2m
            rcases List.mem_map.mp hz2m with ⟨w, hwm, rfl⟩
            rcases List.mem_map.mp hwm with ⟨v, hvm, rfl⟩
            have hvc : v.id ∈ c := by
              rw [zoneStepState_id, prePassZone_id] at hz2c
              exact hz2c
            have hpre : prePassZone c v = v := prePassZone_of_controlled hvc
            rw [hpre] at hz2s
            have hvp : v ∈ (stateAfterZonePass c s).zones := by
              rw [← hs1]
              exact hvm
            have hvnot : v.status ≠ 1 :=
              (countActive_eq_zero_iff c (stateAfterZonePass c s)).mp hcnt0 v hvp hvc
            rcases stepped_on_cases hz2s with hv1 | ⟨t, hvft, hvbt⟩
            · exact hvnot hv1
            · have hmem2 : zoneStepState c (countActive c (stateAfterForcedOff c s1)) v ∈
                  (stateAfterZonePass c s1).zones := by
                rw [stateAfterZonePass_zones]
                have h6 : prePassZone c v ∈ (stateAfterForcedOff c s1).zones :=
                  List.mem_map_of_mem _ hvm
                rw [hpre] at h6
                exact List.mem_map_of_mem _ h6
              have h7 := (allAboveB_eq_true_iff c (stateAfterZonePass c s1)).mp hall2
                (zoneStepState c (countActive c (stateAfterForcedOff c s1)) v) hmem2
                (by rw [zoneStepState_id]; exact hvc) hz2s t
                (by rw [zoneStepState_firstTemp]; exact hvft)
              rw [zoneStepState_desired] at h7
              unfold TEMP_ABOVE_THRESHOLD TEMP_BELOW_THRESHOLD at *
              omega
          · have hallF : allAboveB c (stateAfterZonePass c s) = false := by
              cases hx : allAboveB c (stateAfterZonePass c s) with
              | false => rfl
              | true => exact absurd hx hall1
            rcases (allAboveB_eq_false_iff c (stateAfterZonePass c s)).mp hallF with
              ⟨z, hzm, hzc, hzs, t, hzft, hzlt⟩
            have hzs1m : z ∈ s1.zones := by
              rw [hs1]
              exact hzm
            have hsurv := on_below_survives hzs1m hzc hzs hzft hzlt
            exact absurd hall2 (by simp [hsurv])
        · rintro ⟨_, hne⟩
          exact hne hpw2

/-- C4 counterexample: a sole active controlled zone above threshold
plus an off zone below threshold.  The first cycle only switches the
cold zone on (the hot zone is protected as sole active zone); the
second cycle, on the state reflecting that command and with unchanged
readings, switches the hot zone off, so the claimed quiescence of the
second run fails. -/
theorem second_cycle_issues_zone_switch_cx :
    deviceCmds (runCycleCmds [1, 2] ("climate.x") ("") (fun _ => true)
        (runCycleState [1, 2]
          ⟨1, [⟨1, ("a"), 1, 22, [⟨some 24⟩]⟩, ⟨2, ("b"), 0, 20, [⟨some 17⟩]⟩]⟩)) =
      [Cmd.zoneSwitch 1 0] ∧
      statusWF ⟨1, [⟨1, ("a"), 1, 22, [⟨some 24⟩]⟩, ⟨2, ("b"), 0, 20, [⟨some 17⟩]⟩]⟩ :=
  ⟨by decide, by decide⟩

/-- C4 witness: a sole active controlled zone above threshold; the
second cycle issues no climate command. -/
theorem second_cycle_no_ac_power_command_witness :
    (runCycleCmds [1] ("climate.x") ("") (fun _ => true)
        (runCycleState [1] ⟨1, [⟨1, ("a"), 1, 22, [⟨some 24⟩]⟩]⟩)).filter
      isClimateCmd = [] :=
  second_cycle_no_ac_power_command [1] ("climate.x") ("") (fun _ => true)
    ⟨1, [⟨1, ("a"), 1, 22, [⟨some 24⟩]⟩]⟩ (by decide)

end AT3
